import Mathlib

/-!
Shallow embedding of the velero-plugin-example restore-pod action plugin.

The Go sources embedded here:
  - internal/plugin/util/util.go        (ParseResourceRequirements,
    ParseSecurityContext, GetPluginConfig)
  - internal/plugin/restore/restorePodActionPlugin.go
    (initcontainerConfig, newInitcontainerConfig, Execute)

Cluster I/O (GetClients, the ConfigMap List call) is externalized: the
embedded functions take the outcome of each cluster call as an explicit
`Except` argument.  Go`s multi-value `(value, error)` returns are embedded
as products with `Option String` errors; a Go runtime panic (nil-pointer
dereference) is embedded as the `GoResult.panic` outcome.
-/

namespace VeleroPlugin

/-- Outcome of a Go call that can return a value, return an error, or
crash with a runtime panic (nil-pointer dereference). -/
inductive GoResult (α : Type) where
  | ok (a : α)
  | err (e : String)
  | panic
deriving DecidableEq, Repr

/-!
### Quantity model

Models `k8s.io/apimachinery/pkg/api/resource.Quantity` as parsed by
`resource.ParseQuantity`: the semantic numeric value as an integer
fraction, plus the cached string.  `ParseQuantity("0")` takes the fast path and
returns a struct whose cached string is exactly `"0"`; for any other
input the cached string differs from `"0"`, so Go struct equality with
`resource.MustParse("0")` holds exactly when the input string was the
literal `"0"`.  The grammar covers sign, decimal mantissa, decimal
exponent, and the SI / binary suffixes.
-/

/-- The semantic value of a quantity, as an unnormalized integer
fraction (the denominator is positive by construction of the parser).
Comparison is by cross-multiplication, mirroring `Quantity.Cmp`. -/
structure QVal where
  num : Int
  den : Int
deriving DecidableEq, Repr

def qmul (a b : QVal) : QVal := ⟨a.num * b.num, a.den * b.den⟩

/-- Strict semantic order on quantity values: `a < b`. -/
abbrev qLt (a b : QVal) : Prop := a.num * b.den < b.num * a.den

structure Quantity where
  val : QVal
  s : String
deriving DecidableEq, Repr

/-- `resource.MustParse("0")`: the sentinel the source compares against
with Go struct equality. -/
def unbounded : Quantity := ⟨⟨0, 1⟩, "0"⟩

def digitsToNat (l : List Char) : Nat :=
  l.foldl (fun n c => 10 * n + (c.toNat - 48)) 0

/-- Ten to an integer power, as a fraction. -/
def qpow10 (z : Int) : QVal :=
  if 0 ≤ z then ⟨(10 : Int) ^ z.toNat, 1⟩ else ⟨1, (10 : Int) ^ (-z).toNat⟩

/-- Decimal exponent part of a quantity suffix: `e`/`E`, optional sign,
at least one digit, nothing after. -/
def parseExpo (cs : List Char) : Option QVal :=
  let (sgn, rest) :=
    match cs with
    | '+' :: r => ((1 : Int), r)
    | '-' :: r => ((-1 : Int), r)
    | r => ((1 : Int), r)
  let (ds, r2) := rest.span (·.isDigit)
  if ds = [] ∨ r2 ≠ [] then none
  else some (qpow10 (sgn * (digitsToNat ds : Int)))

/-- Multiplier denoted by a quantity suffix (SI, binary, or decimal
exponent). -/
def suffixMultiplier : List Char → Option QVal
  | [] => some ⟨1, 1⟩
  | ['n'] => some ⟨1, 1000000000⟩
  | ['u'] => some ⟨1, 1000000⟩
  | ['m'] => some ⟨1, 1000⟩
  | ['k'] => some ⟨1000, 1⟩
  | ['M'] => some ⟨1000000, 1⟩
  | ['G'] => some ⟨1000000000, 1⟩
  | ['T'] => some ⟨1000000000000, 1⟩
  | ['P'] => some ⟨1000000000000000, 1⟩
  | ['E'] => some ⟨1000000000000000000, 1⟩
  | ['K', 'i'] => some ⟨1024, 1⟩
  | ['M', 'i'] => some ⟨1048576, 1⟩
  | ['G', 'i'] => some ⟨1073741824, 1⟩
  | ['T', 'i'] => some ⟨1099511627776, 1⟩
  | ['P', 'i'] => some ⟨1125899906842624, 1⟩
  | ['E', 'i'] => some ⟨1152921504606846976, 1⟩
  | 'e' :: rest => parseExpo rest
  | 'E' :: rest => parseExpo rest
  | _ => none

/-- Semantic value of a quantity string: sign, decimal mantissa,
optional suffix. -/
def parseQuantityVal (str : String) : Option QVal :=
  let (sgn, cs) :=
    match str.data with
    | '+' :: r => ((1 : Int), r)
    | '-' :: r => ((-1 : Int), r)
    | r => ((1 : Int), r)
  let (ipart, r1) := cs.span (·.isDigit)
  match r1 with
  | '.' :: r2 =>
    let (fpart, r3) := r2.span (·.isDigit)
    if ipart = [] ∧ fpart = [] then none
    else
      match suffixMultiplier r3 with
      | none => none
      | some mult =>
        some (qmul ⟨sgn, 1⟩ (qmul ⟨(digitsToNat ipart : Int) * (10 : Int) ^ fpart.length +
          (digitsToNat fpart : Int), (10 : Int) ^ fpart.length⟩ mult))
  | r2 =>
    if ipart = [] then none
    else
      match suffixMultiplier r2 with
      | none => none
      | some mult => some (qmul ⟨sgn, 1⟩ (qmul ⟨(digitsToNat ipart : Int), 1⟩ mult))

/-- Model of `resource.ParseQuantity`.  Returns the semantic value and
caches the input string (the `"0"` fast path caches exactly `"0"`, and
only the input `"0"` produces a struct equal to `MustParse("0")`). -/
def ParseQuantity (str : String) : Option Quantity :=
  if str = "" then none
  else if str = "0" then some unbounded
  else (parseQuantityVal str).map (fun v => ⟨v, str⟩)

/-!
### Kubernetes core-v1 object model (the fields the plugin touches)
-/

structure ObjectFieldSelector where
  fieldPath : String
deriving DecidableEq, Repr

structure EnvVarSource where
  fieldRef : Option ObjectFieldSelector
deriving DecidableEq, Repr

structure EnvVar where
  name : String
  value : String
  valueFrom : Option EnvVarSource
deriving DecidableEq, Repr

structure PersistentVolumeClaimVolumeSource where
  claimName : String
  readOnly : Bool
deriving DecidableEq, Repr

structure Volume where
  name : String
  persistentVolumeClaim : Option PersistentVolumeClaimVolumeSource
deriving DecidableEq, Repr

structure VolumeMount where
  name : String
  mountPath : String
  readOnly : Bool
deriving DecidableEq, Repr

structure SecurityContext where
  runAsUser : Option Int
  runAsGroup : Option Int
  allowPrivilegeEscalation : Option Bool
deriving DecidableEq, Repr

/-- `corev1.ResourceRequirements`; the Requests/Limits maps are embedded
as association lists keyed by resource name (`"cpu"`, `"memory"`). -/
structure ResourceRequirements where
  requests : List (String × Quantity)
  limits : List (String × Quantity)
deriving DecidableEq, Repr

structure Container where
  name : String
  image : String
  env : List EnvVar
  args : List String
  volumeMounts : List VolumeMount
  resources : ResourceRequirements
  securityContext : Option SecurityContext
deriving DecidableEq, Repr

/-- Object metadata; `namespaceVal` stands for the `namespace` field
(`namespace` is a Lean keyword).  `annotations` is `none` when the Go
map is nil. -/
structure ObjectMeta where
  name : String
  namespaceVal : String
  annotations : Option (List (String × String))
deriving DecidableEq, Repr

structure PodSpec where
  volumes : List Volume
  initContainers : List Container
deriving DecidableEq, Repr

structure Pod where
  metadata : ObjectMeta
  spec : PodSpec
deriving DecidableEq, Repr

structure ConfigMap where
  name : String
  data : List (String × String)
deriving DecidableEq, Repr

/-!
### util.go
-/

def emptyResourceRequirements : ResourceRequirements := ⟨[], []⟩

/-- util.ParseResourceRequirements.  Returns the Go pair
`(ResourceRequirements, error)`: on any failure the requirements value is
the still-empty struct.  A parsed quantity is compared with
`MustParse("0")` by Go struct equality to decide unboundedness. -/
def ParseResourceRequirements (cpuRequest memRequest cpuLimit memLimit : String) :
    ResourceRequirements × Option String :=
  match ParseQuantity cpuRequest with
  | none => (emptyResourceRequirements,
      some ("couldn't parse CPU request \"" ++ cpuRequest ++ "\""))
  | some parsedCPURequest =>
    match ParseQuantity memRequest with
    | none => (emptyResourceRequirements,
        some ("couldn't parse memory request \"" ++ memRequest ++ "\""))
    | some parsedMemRequest =>
      match ParseQuantity cpuLimit with
      | none => (emptyResourceRequirements,
          some ("couldn't parse CPU limit \"" ++ cpuLimit ++ "\""))
      | some parsedCPULimit =>
        match ParseQuantity memLimit with
        | none => (emptyResourceRequirements,
            some ("couldn't parse memory limit \"" ++ memLimit ++ "\""))
        | some parsedMemLimit =>
          if parsedCPULimit ≠ unbounded ∧ qLt parsedCPULimit.val parsedCPURequest.val then
            (emptyResourceRequirements,
              some ("CPU request \"" ++ cpuRequest ++
                "\" must be less than or equal to CPU limit \"" ++ cpuLimit ++ "\""))
          else if parsedMemLimit ≠ unbounded ∧ qLt parsedMemLimit.val parsedMemRequest.val then
            (emptyResourceRequirements,
              some ("Memory request \"" ++ memRequest ++
                "\" must be less than or equal to Memory limit \"" ++ memLimit ++ "\""))
          else
            ({ requests :=
                 (if parsedCPURequest ≠ unbounded then [("cpu", parsedCPURequest)] else []) ++
                 (if parsedMemRequest ≠ unbounded then [("memory", parsedMemRequest)] else [])
               limits :=
                 (if parsedCPULimit ≠ unbounded then [("cpu", parsedCPULimit)] else []) ++
                 (if parsedMemLimit ≠ unbounded then [("memory", parsedMemLimit)] else []) },
             none)

/-- strconv.ParseInt with base 10 and 64-bit size: optional sign, at
least one digit, value within the int64 range. -/
def GoParseInt (s : String) : Option Int :=
  let (neg, cs) :=
    match s.data with
    | '+' :: r => (false, r)
    | '-' :: r => (true, r)
    | r => (false, r)
  if cs = [] ∨ cs.any (fun c => !c.isDigit) then none
  else
    let n : Nat := digitsToNat cs
    if neg then
      if n ≤ 2 ^ 63 then some (-(n : Int)) else none
    else
      if n ≤ 2 ^ 63 - 1 then some (n : Int) else none

/-- strconv.ParseBool: the twelve accepted literals. -/
def GoParseBool (s : String) : Option Bool :=
  if s = "1" ∨ s = "t" ∨ s = "T" ∨ s = "true" ∨ s = "TRUE" ∨ s = "True" then some true
  else if s = "0" ∨ s = "f" ∨ s = "F" ∨ s = "false" ∨ s = "FALSE" ∨ s = "False" then
    some false
  else none

/-- Third step of util.ParseSecurityContext (the
allowPrivilegeEscalation block); `sc` is the context built so far. -/
def parseSC3 (sc : SecurityContext) (allowPrivilegeEscalation : String) :
    SecurityContext × Option String :=
  if allowPrivilegeEscalation ≠ "" then
    match GoParseBool allowPrivilegeEscalation with
    | none => (sc, some ("Security context allowPrivilegeEscalation \"" ++
        allowPrivilegeEscalation ++ "\" is not a boolean"))
    | some pb => ({ sc with allowPrivilegeEscalation := some pb }, none)
  else (sc, none)

/-- Second step of util.ParseSecurityContext (the runAsGroup block). -/
def parseSC2 (sc : SecurityContext) (runAsGroup allowPrivilegeEscalation : String) :
    SecurityContext × Option String :=
  if runAsGroup ≠ "" then
    match GoParseInt runAsGroup with
    | none => (sc, some ("Security context runAsGroup \"" ++ runAsGroup ++
        "\" is not a number"))
    | some pg => parseSC3 { sc with runAsGroup := some pg } allowPrivilegeEscalation
  else parseSC3 sc allowPrivilegeEscalation

/-- util.ParseSecurityContext.  Sequential early-return structure of the
source: each block runs only when its string is non-empty; a parse
failure returns the context built so far together with the error. -/
def ParseSecurityContext (runAsUser runAsGroup allowPrivilegeEscalation : String) :
    SecurityContext × Option String :=
  let securityContext : SecurityContext :=
    { runAsUser := none, runAsGroup := none, allowPrivilegeEscalation := none }
  if runAsUser ≠ "" then
    match GoParseInt runAsUser with
    | none => (securityContext, some ("Security context runAsUser \"" ++ runAsUser ++
        "\" is not a number"))
    | some pu =>
      parseSC2 { securityContext with runAsUser := some pu } runAsGroup
        allowPrivilegeEscalation
  else parseSC2 securityContext runAsGroup allowPrivilegeEscalation

/-- Space-separated rendering of a string slice, as Go fmt `%v` prints
the list of ConfigMap names (without the surrounding brackets). -/
def joinSpace : List String → String
  | [] => ""
  | [n] => n
  | n :: rest => n ++ " " ++ joinSpace rest

/-- The label selector built by util.GetPluginConfig. -/
def pluginConfigSelector (kind nm : String) : String :=
  "velero.io/plugin-config," ++ nm ++ "=" ++ kind

/-- The error message of util.GetPluginConfig for an ambiguous match,
carrying the names of all matching ConfigMaps. -/
def tooManyConfigMapsMsg (selector : String) (names : List String) : String :=
  "found more than one ConfigMap matching label selector \"" ++ selector ++
    "\": [" ++ joinSpace names ++ "]"

/-- util.GetPluginConfig.  `listRes` is the outcome of the cluster List
call for the label selector.  Zero matches yield `ok none` (Go nil with
nil error); more than one match is a hard error naming every match. -/
def GetPluginConfig (kind nm : String) (listRes : Except String (List ConfigMap)) :
    Except String (Option ConfigMap) :=
  match listRes with
  | .error e => .error e
  | .ok [] => .ok none
  | .ok [c] => .ok (some c)
  | .ok items => .error (tooManyConfigMapsMsg (pluginConfigSelector kind nm)
      (items.map (·.name)))

/-!
### restorePodActionPlugin.go
-/

/-- The plugin name constant RestorePodActionPluginName. -/
def RestorePodActionPluginName : String :=
  "catalogicsoftware.com/offload-restore-pod-action-plugin"

/-- The restore annotation key gating the mutation. -/
def offloadGateKey : String := "cloudcasa-restore-from-offload"

/-- The initcontainerConfig struct.  `kubeMoverPodNamePrefixVal` embeds
the source field kubeMoverPodNamePrefix. -/
structure initcontainerConfig where
  clusterID : String
  kubeMoverPodNamePrefixVal : String
  kubeMoverImage : String
  serverAddr : String
  useTLS : String
  cpuRequest : String
  cpuLimit : String
  memRequest : String
  memLimit : String
  runAsRoot : String
  runAsGroup : String
  allowPrivilegeEscalation : String
deriving DecidableEq, Repr

/-- Go map indexing `config.Data[k]`: the zero value `""` for a missing
key. -/
def lookupD (data : List (String × String)) (k : String) : String :=
  (data.lookup k).getD ""

/-- newInitcontainerConfig.  `clientRes` is the outcome of
util.GetClients, `listRes` the outcome of the ConfigMap List call.  The
source struct literal never copies the cpu/mem request/limit values out
of the ConfigMap data; it only overwrites the zero value `""` with a
default when the corresponding data key is empty.  When GetPluginConfig
returns a nil ConfigMap (zero matches) the source dereferences it
(`config.Data`), a nil-pointer panic. -/
def newInitcontainerConfig (clientRes : Except String Unit)
    (listRes : Except String (List ConfigMap)) : GoResult initcontainerConfig :=
  match clientRes with
  | .error e => .err e
  | .ok () =>
    match GetPluginConfig "RestoreItemAction" RestorePodActionPluginName listRes with
    | .error e => .err e
    | .ok none => .panic
    | .ok (some config) =>
      let i0 : initcontainerConfig :=
        { clusterID := lookupD config.data "clusterID"
          kubeMoverPodNamePrefixVal := lookupD config.data "kubeMoverPodNamePrefix"
          kubeMoverImage := lookupD config.data "kubeMoverImage"
          serverAddr := lookupD config.data "serverAddr"
          useTLS := lookupD config.data "useTLS"
          cpuRequest := ""
          cpuLimit := ""
          memRequest := ""
          memLimit := ""
          runAsRoot := lookupD config.data "runAsRoot"
          runAsGroup := lookupD config.data "runAsGroup"
          allowPrivilegeEscalation := lookupD config.data "allowPrivilegeEscalation" }
      let i1 := if lookupD config.data "cpuRequest" = ""
        then { i0 with cpuRequest := "100m" } else i0
      let i2 := if lookupD config.data "cpuLimit" = ""
        then { i1 with cpuLimit := "128Mi" } else i1
      let i3 := if lookupD config.data "memRequest" = ""
        then { i2 with memRequest := "100m" } else i2
      let i4 := if lookupD config.data "memLimit" = ""
        then { i3 with memLimit := "128Mi" } else i3
      .ok i4

/-- The volume loop of Execute: one pass over `pod.Spec.Volumes`
producing (podVolumes, podVolumeMounts, podMountPoints); a volume with
no persistent-volume-claim source is skipped. -/
def bindPodVolumes : List Volume → List Volume × List VolumeMount × List String
  | [] => ([], [], [])
  | v :: rest =>
    match v.persistentVolumeClaim with
    | none => bindPodVolumes rest
    | some pvc =>
      let (vs, ms, ps) := bindPodVolumes rest
      let mountPath := "/" ++ pvc.claimName
      (⟨v.name, some ⟨pvc.claimName, false⟩⟩ :: vs,
       ⟨v.name, mountPath, false⟩ :: ms,
       mountPath :: ps)

/-- Go map assignment on a possibly-nil annotation map: make the map if
nil, then upsert the key. -/
def upsertAList (l : List (String × String)) (k v : String) : List (String × String) :=
  match l with
  | [] => [(k, v)]
  | (k0, v0) :: rest => if k0 = k then (k, v) :: rest else (k0, v0) :: upsertAList rest k v

/-- The initContainer literal built inside Execute.  The source drops
the errors of ParseResourceRequirements and ParseSecurityContext and
uses whatever value came back alongside them. -/
def buildInitContainer (cfg : initcontainerConfig) (podName : String)
    (podVolumeMounts : List VolumeMount) (podMountPoints : List String) : Container :=
  let resourceReqs :=
    (ParseResourceRequirements cfg.cpuRequest cfg.memRequest cfg.cpuLimit cfg.memLimit).1
  let securityContext :=
    (ParseSecurityContext cfg.runAsRoot cfg.runAsGroup cfg.allowPrivilegeEscalation).1
  { name := cfg.kubeMoverPodNamePrefixVal ++ podName
    image := cfg.kubeMoverImage
    env := [
      { name := "AMDS_CLUSTER_ID", value := cfg.clusterID, valueFrom := none },
      { name := "POD_NAMESPACE", value := "",
        valueFrom := some { fieldRef := some { fieldPath := "metadata.namespace" } } },
      { name := "POD_NAME", value := "",
        valueFrom := some { fieldRef := some { fieldPath := "metadata.name" } } }]
    args := ["/usr/local/bin/kubemover", "--server_addr", cfg.serverAddr,
      "--tls", cfg.useTLS] ++ podMountPoints
    volumeMounts := podVolumeMounts
    resources := resourceReqs
    securityContext := some securityContext }

/-- The init-container merge at the end of Execute: prepend when the
list is empty or its first element has a different name, otherwise
overwrite the first element. -/
def mergeInitContainers (c : Container) (l : List Container) : List Container :=
  match l with
  | [] => [c]
  | x :: xs => if x.name ≠ c.name then c :: x :: xs else c :: xs

/-- Execute.  `restoreAnnotations` is `input.Restore.GetAnnotations()`
(`none` for a nil map); `item` is the restored Pod (items are Pods, so
meta.Accessor and the unstructured conversions succeed and are the
identity here).  The gate returns the input unchanged BEFORE the
presence annotation is set.  The error returned by
newInitcontainerConfig is discarded and the nil config dereferenced — a
panic; the errors of the two parse helpers are likewise discarded. -/
def Execute (clientRes : Except String Unit) (listRes : Except String (List ConfigMap))
    (restoreAnnotations : Option (List (String × String))) (item : Pod) : GoResult Pod :=
  match restoreAnnotations with
  | none => .ok item
  | some anns =>
    if (anns.lookup offloadGateKey).isNone then .ok item
    else
      let anns1 := upsertAList (item.metadata.annotations.getD []) RestorePodActionPluginName "1"
      let item1 : Pod := { item with metadata := { item.metadata with annotations := some anns1 } }
      let bound := bindPodVolumes item1.spec.volumes
      match newInitcontainerConfig clientRes listRes with
      | .panic => .panic
      | .err _ => .panic
      | .ok cfg =>
        let c := buildInitContainer cfg item1.metadata.name bound.2.1 bound.2.2
        .ok { item1 with spec :=
          { item1.spec with initContainers := mergeInitContainers c item1.spec.initContainers } }

/-!
### Auxiliary definitions for stating the properties
-/

/-- Boolean test: `pat` is a leading segment of `l`. -/
def charsPre : List Char → List Char → Bool
  | [], _ => true
  | _ :: _, [] => false
  | a :: as, b :: bs => a == b && charsPre as bs

/-- Boolean test: `pat` occurs contiguously inside `l`. -/
def charsSub (pat : List Char) : List Char → Bool
  | [] => pat.isEmpty
  | c :: rest => charsPre pat (c :: rest) || charsSub pat rest

/-- Boolean substring test on strings. -/
def containsSub (s pat : String) : Bool := charsSub pat.data s.data

/-- Number of init containers of the Pod inside an Execute outcome. -/
def execInitLen : GoResult Pod → Option Nat
  | .ok p => some p.spec.initContainers.length
  | .err _ => none
  | .panic => none

/-- Project the Pod out of an Execute outcome, with a fallback. -/
def goResultPodD (r : GoResult Pod) (d : Pod) : Pod :=
  match r with
  | .ok p => p
  | .err _ => d
  | .panic => d

/-- Sample Pod: one config-map-style volume and two PVC-backed volumes,
no init containers, nil annotation map. -/
def samplePod : Pod :=
  ⟨⟨"mypod", "ns", none⟩,
   ⟨[⟨"v0", none⟩, ⟨"v1", some ⟨"data", false⟩⟩, ⟨"v2", some ⟨"logs", false⟩⟩], []⟩⟩

/-- Sample plugin ConfigMap that supplies a non-empty cpuRequest. -/
def cmSupplied : ConfigMap :=
  ⟨"cloudcasa-plugin-config", [("cpuRequest", "250m"), ("clusterID", "cid")]⟩

/-- The config record newInitcontainerConfig builds from `cmSupplied`:
the supplied "250m" is dropped (field left at the zero value). -/
def cfgSupplied : initcontainerConfig :=
  ⟨"cid", "", "", "", "", "", "128Mi", "100m", "128Mi", "", "", ""⟩

/-- Sample plugin ConfigMap with no data keys: every cpu/mem field gets
its default. -/
def cmEmpty : ConfigMap := ⟨"cloudcasa-plugin-config", []⟩

/-- The config record newInitcontainerConfig builds from `cmEmpty`. -/
def cfgDefault : initcontainerConfig :=
  ⟨"", "", "", "", "", "100m", "128Mi", "100m", "128Mi", "", "", ""⟩

/-- Restore annotations carrying the offload gate key. -/
def gateAnns : List (String × String) := [("cloudcasa-restore-from-offload", "1")]

/-- `samplePod` after one successful mutation with the default config. -/
def mutatedOnce : Pod :=
  goResultPodD (Execute (.ok ()) (.ok [cmEmpty]) (some gateAnns) samplePod) samplePod

/-- The Pod Execute returns on the gate-true path with config `cfg`:
presence annotation set, injected container merged in front. -/
def executeMutated (cfg : initcontainerConfig) (item : Pod) : Pod :=
  { metadata := { item.metadata with annotations := some (upsertAList (item.metadata.annotations.getD []) RestorePodActionPluginName "1") }
    spec := { volumes := item.spec.volumes
              initContainers := mergeInitContainers (buildInitContainer cfg item.metadata.name (bindPodVolumes item.spec.volumes).2.1 (bindPodVolumes item.spec.volumes).2.2) item.spec.initContainers } }

/-!
### Supporting lemmas
-/

theorem ParseQuantity_s_eq {str : String} {q : Quantity} (h : ParseQuantity str = some q) :
    q.s = str := by
  unfold ParseQuantity at h
  by_cases h1 : str = ""
  · rw [if_pos h1] at h
    exact Option.noConfusion h
  · rw [if_neg h1] at h
    by_cases h2 : str = "0"
    · rw [if_pos h2] at h
      cases Option.some.inj h
      rw [h2]
      rfl
    · rw [if_neg h2] at h
      cases hv : parseQuantityVal str with
      | none => rw [hv] at h; exact Option.noConfusion h
      | some v =>
        rw [hv] at h
        cases Option.some.inj h
        rfl

theorem ParseQuantity_unbounded_iff {str : String} {q : Quantity}
    (h : ParseQuantity str = some q) : q = unbounded ↔ str = "0" := by
  constructor
  · intro hq
    have := ParseQuantity_s_eq h
    rw [hq] at this
    exact this.symm
  · intro h0
    subst h0
    have h0 : ParseQuantity "0" = some unbounded := by decide
    rw [h0] at h
    exact (Option.some.inj h).symm

theorem bindPodVolumes_eq (vols : List Volume) :
    bindPodVolumes vols =
      (vols.filterMap (fun v => v.persistentVolumeClaim.map
         (fun p => ({ name := v.name,
                      persistentVolumeClaim := some ⟨p.claimName, false⟩ } : Volume))),
       vols.filterMap (fun v => v.persistentVolumeClaim.map
         (fun p => ({ name := v.name, mountPath := "/" ++ p.claimName,
                      readOnly := false } : VolumeMount))),
       vols.filterMap (fun v => v.persistentVolumeClaim.map
         (fun p => "/" ++ p.claimName))) := by
  induction vols with
  | nil => rfl
  | cons v rest ih => cases hp : v.persistentVolumeClaim <;> simp [bindPodVolumes, hp, ih]

theorem mergeInitContainers_head (c : Container) (l : List Container) :
    (mergeInitContainers c l).head? = some c := by
  cases l with
  | nil => rfl
  | cons x xs =>
    simp only [mergeInitContainers]
    split <;> rfl

theorem mergeInitContainers_idem (c : Container) (l : List Container) :
    mergeInitContainers c (mergeInitContainers c l) = mergeInitContainers c l := by
  have hcc : ¬ (c.name ≠ c.name) := by simp
  cases l with
  | nil =>
    simp only [mergeInitContainers]
    rw [if_neg hcc]
  | cons x xs =>
    simp only [mergeInitContainers]
    by_cases hx : x.name ≠ c.name
    · rw [if_pos hx]
      simp only [mergeInitContainers]
      rw [if_neg hcc]
    · rw [if_neg hx]
      simp only [mergeInitContainers]
      rw [if_neg hcc]

theorem upsertAList_idem (l : List (String × String)) (k v : String) :
    upsertAList (upsertAList l k v) k v = upsertAList l k v := by
  induction l with
  | nil => simp [upsertAList]
  | cons p rest ih =>
    obtain ⟨k0, v0⟩ := p
    by_cases hk : k0 = k
    · simp [upsertAList, hk]
    · simp [upsertAList, hk, ih]

/-!
### Claim theorems
-/

/-- Claim C4: ParseResourceRequirements enforces request ≤ limit independently
for CPU and memory whenever the limit is bounded (so in particular whenever
both sides are bounded), failing hard with still-empty Requests/Limits maps
rather than clamping; ("200m","100m","100m","100m") fails;
("100m","100m","200m","200m") succeeds with non-empty maps; and an input
string equal to the literal unbounded quantity "0" is omitted from the output
maps entirely. -/
theorem parse_resource_requirements_spec :
    (∀ cr mr cl ml qcr qcl, ParseQuantity cr = some qcr → ParseQuantity cl = some qcl →
      qcl ≠ unbounded → qLt qcl.val qcr.val →
      (ParseResourceRequirements cr mr cl ml).1 = emptyResourceRequirements ∧
      ((ParseResourceRequirements cr mr cl ml).2).isSome = true) ∧
    (∀ cr mr cl ml qmr qml, ParseQuantity mr = some qmr → ParseQuantity ml = some qml →
      qml ≠ unbounded → qLt qml.val qmr.val →
      (ParseResourceRequirements cr mr cl ml).1 = emptyResourceRequirements ∧
      ((ParseResourceRequirements cr mr cl ml).2).isSome = true) ∧
    ((ParseResourceRequirements "200m" "100m" "100m" "100m").2).isSome = true ∧
    ((ParseResourceRequirements "100m" "100m" "200m" "200m").2 = none ∧
      (ParseResourceRequirements "100m" "100m" "200m" "200m").1.requests ≠ [] ∧
      (ParseResourceRequirements "100m" "100m" "200m" "200m").1.limits ≠ []) ∧
    (∀ cr mr cl ml,
      (cr = "0" → ((ParseResourceRequirements cr mr cl ml).1.requests.lookup "cpu") = none) ∧
      (mr = "0" → ((ParseResourceRequirements cr mr cl ml).1.requests.lookup "memory") = none) ∧
      (cl = "0" → ((ParseResourceRequirements cr mr cl ml).1.limits.lookup "cpu") = none) ∧
      (ml = "0" → ((ParseResourceRequirements cr mr cl ml).1.limits.lookup "memory") = none)) := by
  refine ⟨?_, ?_, by decide, by decide, ?_⟩
  · intro cr mr cl ml qcr qcl hcr hcl hne hlt
    cases hmr : ParseQuantity mr with
    | none =>
      simp [ParseResourceRequirements, hcr, hmr]
    | some qmr =>
      cases hml : ParseQuantity ml with
      | none =>
        simp [ParseResourceRequirements, hcr, hmr, hcl, hml]
      | some qml =>
        simp only [ParseResourceRequirements, hcr, hmr, hcl, hml]
        rw [if_pos ⟨hne, hlt⟩]
        exact ⟨rfl, rfl⟩
  · intro cr mr cl ml qmr qml hmr hml hne hlt
    cases hcr : ParseQuantity cr with
    | none =>
      simp [ParseResourceRequirements, hcr]
    | some qcr =>
      cases hcl : ParseQuantity cl with
      | none =>
        simp [ParseResourceRequirements, hcr, hmr, hcl, hml]
      | some qcl =>
        simp only [ParseResourceRequirements, hcr, hmr, hcl, hml]
        by_cases hfirst : qcl ≠ unbounded ∧ qLt qcl.val qcr.val
        · rw [if_pos hfirst]
          exact ⟨rfl, rfl⟩
        · rw [if_neg hfirst, if_pos ⟨hne, hlt⟩]
          exact ⟨rfl, rfl⟩
  · intro cr mr cl ml
    have hp0 : ParseQuantity "0" = some unbounded := by decide
    refine ⟨?_, ?_, ?_, ?_⟩
    · intro h0
      rw [h0]
      rcases hmr : ParseQuantity mr with _ | qmr <;>
        rcases hcl : ParseQuantity cl with _ | qcl <;>
        rcases hml : ParseQuantity ml with _ | qml <;>
        simp only [ParseResourceRequirements, hp0, hmr, hcl, hml] <;>
        (repeat' split) <;>
        simp_all [List.lookup, emptyResourceRequirements]
    · intro h0
      rw [h0]
      rcases hcr : ParseQuantity cr with _ | qcr <;>
        rcases hcl : ParseQuantity cl with _ | qcl <;>
        rcases hml : ParseQuantity ml with _ | qml <;>
        simp only [ParseResourceRequirements, hp0, hcr, hcl, hml] <;>
        (repeat' split) <;>
        simp_all [List.lookup, emptyResourceRequirements]
    · intro h0
      rw [h0]
      rcases hcr : ParseQuantity cr with _ | qcr <;>
        rcases hmr : ParseQuantity mr with _ | qmr <;>
        rcases hml : ParseQuantity ml with _ | qml <;>
        simp only [ParseResourceRequirements, hp0, hcr, hmr, hml] <;>
        (repeat' split) <;>
        simp_all [List.lookup, emptyResourceRequirements]
    · intro h0
      rw [h0]
      rcases hcr : ParseQuantity cr with _ | qcr <;>
        rcases hmr : ParseQuantity mr with _ | qmr <;>
        rcases hcl : ParseQuantity cl with _ | qcl <;>
        simp only [ParseResourceRequirements, hp0, hcr, hmr, hcl] <;>
        (repeat' split) <;>
        simp_all [List.lookup, emptyResourceRequirements]

/-- Witness for C4 at the concrete validation-boundary input. -/
theorem parse_resource_requirements_spec_witness :
    (ParseResourceRequirements "200m" "100m" "100m" "100m").1 = emptyResourceRequirements ∧
    ((ParseResourceRequirements "200m" "100m" "100m" "100m").2).isSome = true :=
  parse_resource_requirements_spec.1 "200m" "100m" "100m" "100m"
    ⟨⟨200, 1000⟩, "200m"⟩ ⟨⟨100, 1000⟩, "100m"⟩ (by decide) (by decide) (by decide) (by decide)

/-- Claim C6: the volume binder yields exactly one binding per
PVC-referencing volume, in declaration order, with mount path
"/" ++ claim name; volumes without a PVC reference are skipped (no error
is possible); the three-volume example yields exactly the two bindings
/data and /logs. -/
theorem volume_binder_spec :
    (∀ vols : List Volume,
      bindPodVolumes vols =
        (vols.filterMap (fun v => v.persistentVolumeClaim.map
           (fun p => ({ name := v.name,
                        persistentVolumeClaim := some ⟨p.claimName, false⟩ } : Volume))),
         vols.filterMap (fun v => v.persistentVolumeClaim.map
           (fun p => ({ name := v.name, mountPath := "/" ++ p.claimName,
                        readOnly := false } : VolumeMount))),
         vols.filterMap (fun v => v.persistentVolumeClaim.map
           (fun p => "/" ++ p.claimName)))) ∧
    bindPodVolumes [⟨"v0", none⟩, ⟨"v1", some ⟨"data", false⟩⟩, ⟨"v2", some ⟨"logs", false⟩⟩] =
      ([⟨"v1", some ⟨"data", false⟩⟩, ⟨"v2", some ⟨"logs", false⟩⟩],
       [⟨"v1", "/data", false⟩, ⟨"v2", "/logs", false⟩],
       ["/data", "/logs"]) :=
  ⟨bindPodVolumes_eq, by decide⟩

/-- Claim C10: a parsed quantity equals the unbounded sentinel exactly
when the input string is the literal "0"; zero-valued strings in any
other syntax ("0m", "0Mi") are bounded, are included in the output maps,
and participate in the request ≤ limit check when used as a limit. -/
theorem unbounded_literal_zero_spec :
    (∀ s q, ParseQuantity s = some q → (q = unbounded ↔ s = "0")) ∧
    ParseQuantity "0m" = some ⟨⟨0, 1000⟩, "0m"⟩ ∧
    ParseQuantity "0Mi" = some ⟨⟨0, 1⟩, "0Mi"⟩ ∧
    (⟨⟨0, 1000⟩, "0m"⟩ : Quantity) ≠ unbounded ∧
    (⟨⟨0, 1⟩, "0Mi"⟩ : Quantity) ≠ unbounded ∧
    ((ParseResourceRequirements "100m" "100m" "0m" "0").2).isSome = true ∧
    ParseResourceRequirements "0" "0" "0m" "0" =
      (⟨[], [("cpu", ⟨⟨0, 1000⟩, "0m"⟩)]⟩, none) :=
  ⟨fun _ _ h => ParseQuantity_unbounded_iff h,
   by decide, by decide, by decide, by decide, by decide, by decide⟩

/-- Witness for C10: instantiating the universal part at the bounded
zero-quantity "0m". -/
theorem unbounded_literal_zero_spec_witness :
    ((⟨⟨0, 1000⟩, "0m"⟩ : Quantity) = unbounded) ↔ ("0m" : String) = "0" :=
  unbounded_literal_zero_spec.1 "0m" ⟨⟨0, 1000⟩, "0m"⟩ (by decide)

/-- Claim C5 (code bug): newInitcontainerConfig applies the non-empty
textual defaults when a cpu/mem key is missing (empty), but a SUPPLIED
non-empty cpu/mem value is silently discarded — the config field stays
at the zero value "" instead of the record's value, contradicting the
documented "populate from the record's key-value data".  The non-resource
fields are taken verbatim. -/
theorem config_resolver_drops_supplied_values :
    newInitcontainerConfig (Except.ok ()) (Except.ok [cmSupplied]) = GoResult.ok cfgSupplied ∧
    lookupD cmSupplied.data "cpuRequest" = "250m" ∧
    cfgSupplied.cpuRequest = "" ∧
    cfgSupplied.clusterID = "cid" ∧
    cfgSupplied.cpuLimit = "128Mi" ∧
    cfgSupplied.memRequest = "100m" ∧
    cfgSupplied.memLimit = "128Mi" ∧
    newInitcontainerConfig (Except.ok ()) (Except.ok [cmEmpty]) = GoResult.ok cfgDefault := by
  refine ⟨by decide, by decide, rfl, rfl, rfl, rfl, rfl, by decide⟩

/-- Claim C1 (code bug): Execute does not abort when configuration
resolution or validation fails.  With a ConfigMap supplying cpuRequest,
the resolved config's cpuRequest is "" (C5), ParseResourceRequirements
fails on it — yet Execute ignores the error and returns a mutated Pod
(one injected init container, empty resources); and when the resolver
itself fails, Execute dereferences the nil config and panics instead of
returning the error. -/
theorem execute_ignores_validation_failures :
    ((ParseResourceRequirements "" "100m" "128Mi" "128Mi").2).isSome = true ∧
    newInitcontainerConfig (Except.ok ()) (Except.ok [cmSupplied]) = GoResult.ok cfgSupplied ∧
    samplePod.spec.initContainers.length = 0 ∧
    execInitLen (Execute (Except.ok ()) (Except.ok [cmSupplied])
      (some gateAnns) samplePod) = some 1 ∧
    Execute (Except.error "no kubeconfig") (Except.ok [cmSupplied])
      (some gateAnns) samplePod = GoResult.panic := by
  refine ⟨by decide, by decide, rfl, by decide, by decide⟩

/-- Claim C7: ParseSecurityContext sets each field only when the
corresponding source string is non-empty; an empty string never causes
an error and a malformed non-empty string always does (the returned
error bit is some exactly when some non-empty input fails to parse);
("","","") yields the empty context with no error, and
("abc","0","true") fails on the user field before any field is set. -/
theorem parse_security_context_spec :
    (∀ u g a, ((ParseSecurityContext u g a).2) = none →
      (((ParseSecurityContext u g a).1.runAsUser.isSome ↔ u ≠ "") ∧
       ((ParseSecurityContext u g a).1.runAsGroup.isSome ↔ g ≠ "") ∧
       ((ParseSecurityContext u g a).1.allowPrivilegeEscalation.isSome ↔ a ≠ ""))) ∧
    (∀ u g a, ((u ≠ "" ∧ GoParseInt u = none) ∨ (g ≠ "" ∧ GoParseInt g = none) ∨
      (a ≠ "" ∧ GoParseBool a = none)) ↔ ((ParseSecurityContext u g a).2).isSome = true) ∧
    ParseSecurityContext "" "" "" = (⟨none, none, none⟩, none) ∧
    ParseSecurityContext "abc" "0" "true" = (⟨none, none, none⟩,
      some "Security context runAsUser \"abc\" is not a number") := by
  refine ⟨?_, ?_, by decide, by decide⟩
  · intro u g a
    by_cases hu : u = "" <;> by_cases hg : g = "" <;> by_cases ha : a = "" <;>
      rcases hpu : GoParseInt u with _ | pu <;>
      rcases hpg : GoParseInt g with _ | pg <;>
      rcases hpa : GoParseBool a with _ | pa <;>
      simp_all [ParseSecurityContext, parseSC2, parseSC3]
  · intro u g a
    by_cases hu : u = "" <;> by_cases hg : g = "" <;> by_cases ha : a = "" <;>
      rcases hpu : GoParseInt u with _ | pu <;>
      rcases hpg : GoParseInt g with _ | pg <;>
      rcases hpa : GoParseBool a with _ | pa <;>
      simp_all [ParseSecurityContext, parseSC2, parseSC3]

/-- Witness for C7: the success-path field-presence property at a
concrete well-formed input. -/
theorem parse_security_context_spec_witness :
    ((ParseSecurityContext "1" "2" "true").1.runAsUser.isSome ↔ ("1" : String) ≠ "") ∧
    ((ParseSecurityContext "1" "2" "true").1.runAsGroup.isSome ↔ ("2" : String) ≠ "") ∧
    ((ParseSecurityContext "1" "2" "true").1.allowPrivilegeEscalation.isSome ↔
      ("true" : String) ≠ "") :=
  parse_security_context_spec.1 "1" "2" "true" (by decide)

/-- Claim C3 counterexample: with no restore annotations the Pod passes
through, but the presence annotation is NOT set — the output is the
input Pod itself, whose annotation map is still nil; likewise when the
annotation mapping lacks the gate key.  This contradicts the claim that
the presence annotation is still set on the gate-false path. -/
theorem gate_false_counterexample :
    Execute (Except.ok ()) (Except.ok [cmSupplied]) none samplePod = GoResult.ok samplePod ∧
    samplePod.metadata.annotations = none ∧
    Execute (Except.ok ()) (Except.ok [cmSupplied]) (some [("other", "1")]) samplePod =
      GoResult.ok samplePod :=
  ⟨by decide, rfl, by decide⟩

/-- Claim C3 (amended): when the restore's annotation mapping is absent
or lacks the cloudcasa-restore-from-offload key, Execute returns the
input item entirely unchanged — init containers unchanged AND no
presence annotation added — with no error. -/
theorem gate_false_passthrough (clientRes : Except String Unit)
    (listRes : Except String (List ConfigMap))
    (restoreAnns : Option (List (String × String))) (item : Pod)
    (h : restoreAnns.bind (fun l => l.lookup offloadGateKey) = none) :
    Execute clientRes listRes restoreAnns item = GoResult.ok item := by
  cases restoreAnns with
  | none => rfl
  | some l =>
    have hl : l.lookup offloadGateKey = none := by simpa using h
    simp [Execute, hl]

/-- Witness for C3 (amended) at a concrete gate-false input. -/
theorem gate_false_passthrough_witness :
    Execute (Except.ok ()) (Except.ok []) none samplePod = GoResult.ok samplePod :=
  gate_false_passthrough (Except.ok ()) (Except.ok []) none samplePod rfl

theorem charsPre_self_append (p r : List Char) : charsPre p (p ++ r) = true := by
  induction p with
  | nil => rfl
  | cons c cs ih => simp [charsPre, ih]

theorem charsSub_of_pre {p l : List Char} (h : charsPre p l = true) :
    charsSub p l = true := by
  cases l with
  | nil =>
    cases p with
    | nil => rfl
    | cons c cs => simp [charsPre] at h
  | cons c rest => simp [charsSub, h]

theorem charsSub_append_left {p l : List Char} (a : List Char)
    (h : charsSub p l = true) : charsSub p (a ++ l) = true := by
  induction a with
  | nil => simpa
  | cons c cs ih => simp [charsSub, ih]

theorem charsSub_mid (p a b : List Char) : charsSub p (a ++ (p ++ b)) = true :=
  charsSub_append_left a (charsSub_of_pre (charsPre_self_append p b))

theorem mem_joinSpace {n : String} {names : List String} (h : n ∈ names) :
    ∃ a b, (joinSpace names).data = a ++ (n.data ++ b) := by
  induction names with
  | nil => cases h
  | cons m rest ih =>
    cases rest with
    | nil =>
      rw [List.mem_singleton] at h
      subst h
      exact ⟨[], [], by simp [joinSpace]⟩
    | cons m2 rest2 =>
      rcases List.mem_cons.mp h with rfl | hmem
      · refine ⟨[], (" " ++ joinSpace (m2 :: rest2)).data, ?_⟩
        simp [joinSpace, String.data_append, List.append_assoc]
      · obtain ⟨a, b, hab⟩ := ih hmem
        refine ⟨(m ++ " ").data ++ a, b, ?_⟩
        simp [joinSpace, String.data_append, hab, List.append_assoc]

theorem containsSub_joinSpace {n : String} {names : List String} (h : n ∈ names)
    (pre post : String) :
    containsSub (pre ++ joinSpace names ++ post) n = true := by
  obtain ⟨a, b, hab⟩ := mem_joinSpace h
  unfold containsSub
  have hdata : (pre ++ joinSpace names ++ post).data =
      (pre.data ++ a) ++ (n.data ++ (b ++ post.data)) := by
    simp [String.data_append, hab, List.append_assoc]
  rw [hdata]
  exact charsSub_mid n.data (pre.data ++ a) (b ++ post.data)

/-- Claim C8 counterexample: when zero configuration records match,
GetPluginConfig does return nil with no error, but the caller does NOT
treat this as default-only configuration — newInitcontainerConfig
dereferences the nil ConfigMap (a panic), and Execute therefore
crashes rather than proceeding with defaults. -/
theorem nil_config_counterexample :
    GetPluginConfig "RestoreItemAction" RestorePodActionPluginName (Except.ok []) =
      Except.ok none ∧
    newInitcontainerConfig (Except.ok ()) (Except.ok []) = GoResult.panic ∧
    Execute (Except.ok ()) (Except.ok []) (some gateAnns) samplePod = GoResult.panic :=
  ⟨rfl, rfl, by decide⟩

/-- Claim C8 (amended): GetPluginConfig returns nil with no error on
zero matches, but the caller dereferences the nil record (panic) instead
of applying default-only configuration; more than one match is a hard
error whose message carries every matching record name; a failed cluster
query is propagated (by GetPluginConfig and by newInitcontainerConfig,
which returns the error without building any configuration). -/
theorem get_plugin_config_spec :
    (∀ kind nm, GetPluginConfig kind nm (Except.ok []) = Except.ok none) ∧
    (∀ kind nm e, GetPluginConfig kind nm (Except.error e) = Except.error e) ∧
    (∀ e, newInitcontainerConfig (Except.ok ()) (Except.error e) = GoResult.err e) ∧
    (∀ e listRes, newInitcontainerConfig (Except.error e) listRes = GoResult.err e) ∧
    (∀ kind nm c0 c1 rest,
      GetPluginConfig kind nm (Except.ok (c0 :: c1 :: rest)) =
        Except.error (tooManyConfigMapsMsg (pluginConfigSelector kind nm)
          ((c0 :: c1 :: rest).map (·.name))) ∧
      (∀ n, n ∈ (c0 :: c1 :: rest).map (·.name) →
        containsSub (tooManyConfigMapsMsg (pluginConfigSelector kind nm)
          ((c0 :: c1 :: rest).map (·.name))) n = true)) ∧
    newInitcontainerConfig (Except.ok ()) (Except.ok []) = GoResult.panic := by
  refine ⟨fun kind nm => rfl, fun kind nm e => rfl, fun e => rfl, fun e listRes => rfl,
    ?_, rfl⟩
  intro kind nm c0 c1 rest
  refine ⟨rfl, ?_⟩
  intro n hn
  unfold tooManyConfigMapsMsg
  exact containsSub_joinSpace hn _ "]"

/-- Witness for C8 at a concrete two-record ambiguous match. -/
theorem get_plugin_config_spec_witness :
    containsSub (tooManyConfigMapsMsg
      (pluginConfigSelector "RestoreItemAction" RestorePodActionPluginName)
      (([⟨"a", []⟩, ⟨"b", []⟩] : List ConfigMap).map (·.name))) "b" = true :=
  (get_plugin_config_spec.2.2.2.2.1 "RestoreItemAction" RestorePodActionPluginName
    ⟨"a", []⟩ ⟨"b", []⟩ []).2 "b" (by decide)

theorem Execute_gate_true {clientRes : Except String Unit}
    {listRes : Except String (List ConfigMap)} {anns : List (String × String)}
    {cfg : initcontainerConfig} (item : Pod)
    (hg : (anns.lookup offloadGateKey).isNone = false)
    (hc : newInitcontainerConfig clientRes listRes = GoResult.ok cfg) :
    Execute clientRes listRes (some anns) item = GoResult.ok (executeMutated cfg item) := by
  simp [Execute, executeMutated, hg, hc]

/-- Claim C9: the injected container of every mutated Pod is named
prefix ++ Pod name, carries the configured image, has argv
kubemover --server_addr addr --tls flag followed by every derived mount
path in volume-declaration order, and binds AMDS_CLUSTER_ID literally
while POD_NAMESPACE and POD_NAME use downward object-field references. -/
theorem injected_container_shape (clientRes : Except String Unit)
    (listRes : Except String (List ConfigMap)) (anns : List (String × String))
    (item : Pod) (cfg : initcontainerConfig) (out : Pod)
    (hg : (anns.lookup offloadGateKey).isNone = false)
    (hc : newInitcontainerConfig clientRes listRes = GoResult.ok cfg)
    (h : Execute clientRes listRes (some anns) item = GoResult.ok out) :
    ∃ c, out.spec.initContainers.head? = some c ∧
      c.name = cfg.kubeMoverPodNamePrefixVal ++ item.metadata.name ∧
      c.image = cfg.kubeMoverImage ∧
      c.args = ["/usr/local/bin/kubemover", "--server_addr", cfg.serverAddr, "--tls",
        cfg.useTLS] ++ item.spec.volumes.filterMap
          (fun v => v.persistentVolumeClaim.map (fun p => "/" ++ p.claimName)) ∧
      c.env = [⟨"AMDS_CLUSTER_ID", cfg.clusterID, none⟩,
        ⟨"POD_NAMESPACE", "", some ⟨some ⟨"metadata.namespace"⟩⟩⟩,
        ⟨"POD_NAME", "", some ⟨some ⟨"metadata.name"⟩⟩⟩] := by
  rw [Execute_gate_true item hg hc] at h
  cases h
  refine ⟨buildInitContainer cfg item.metadata.name
    (bindPodVolumes item.spec.volumes).2.1 (bindPodVolumes item.spec.volumes).2.2,
    mergeInitContainers_head _ _, rfl, rfl, ?_, rfl⟩
  simp [buildInitContainer, bindPodVolumes_eq]

/-- Witness for C9 on the concrete sample Pod with the default config. -/
theorem injected_container_shape_witness :
    ∃ c, mutatedOnce.spec.initContainers.head? = some c ∧
      c.name = cfgDefault.kubeMoverPodNamePrefixVal ++ samplePod.metadata.name ∧
      c.image = cfgDefault.kubeMoverImage ∧
      c.args = ["/usr/local/bin/kubemover", "--server_addr", cfgDefault.serverAddr, "--tls",
        cfgDefault.useTLS] ++ samplePod.spec.volumes.filterMap
          (fun v => v.persistentVolumeClaim.map (fun p => "/" ++ p.claimName)) ∧
      c.env = [⟨"AMDS_CLUSTER_ID", cfgDefault.clusterID, none⟩,
        ⟨"POD_NAMESPACE", "", some ⟨some ⟨"metadata.namespace"⟩⟩⟩,
        ⟨"POD_NAME", "", some ⟨some ⟨"metadata.name"⟩⟩⟩] :=
  injected_container_shape (Except.ok ()) (Except.ok [cmEmpty]) gateAnns samplePod
    cfgDefault mutatedOnce (by decide) (by decide) (by decide)

theorem executeMutated_idem (cfg : initcontainerConfig) (item : Pod) :
    executeMutated cfg (executeMutated cfg item) = executeMutated cfg item := by
  simp [executeMutated, upsertAList_idem, mergeInitContainers_idem]

/-- Claim C2: the init-container merge prepends when the list is empty
or its first element's name differs from the injected name, replaces the
first element (keeping every other init container's order and content)
when the names match, keeps the injected container in first position,
and is idempotent: re-running Execute with the same configuration on an
already-mutated Pod returns that Pod unchanged, so the init-container
list is identical and the injected container is never duplicated. -/
theorem idempotent_merge_spec :
    (∀ c : Container, mergeInitContainers c [] = [c]) ∧
    (∀ (c x : Container) (xs : List Container), x.name ≠ c.name →
      mergeInitContainers c (x :: xs) = c :: x :: xs) ∧
    (∀ (c x : Container) (xs : List Container), x.name = c.name →
      mergeInitContainers c (x :: xs) = c :: xs) ∧
    (∀ (c : Container) (l : List Container), (mergeInitContainers c l).head? = some c) ∧
    (∀ (c : Container) (l : List Container),
      mergeInitContainers c (mergeInitContainers c l) = mergeInitContainers c l) ∧
    (∀ (c : Container) (l : List Container), (∀ x ∈ l, x.name ≠ c.name) →
      (mergeInitContainers c l).filter (fun x => x.name == c.name) = [c]) ∧
    (∀ clientRes listRes restoreAnns item out,
      Execute clientRes listRes restoreAnns item = GoResult.ok out →
      Execute clientRes listRes restoreAnns out = GoResult.ok out) := by
  refine ⟨fun c => rfl, ?_, ?_, mergeInitContainers_head, mergeInitContainers_idem, ?_, ?_⟩
  · intro c x xs hx
    simp only [mergeInitContainers]
    rw [if_pos hx]
  · intro c x xs hx
    simp only [mergeInitContainers]
    rw [if_neg (fun hcontra => hcontra hx)]
  · intro c l hl
    have hfl : List.filter (fun x => x.name == c.name) l = [] := by
      rw [List.filter_eq_nil_iff]
      intro x hx
      simpa using hl x hx
    cases l with
    | nil => simp [mergeInitContainers]
    | cons x xs =>
      have hx : x.name ≠ c.name := hl x (by simp)
      simp only [mergeInitContainers]
      rw [if_pos hx]
      have : List.filter (fun y => y.name == c.name) (x :: xs) = [] := hfl
      simp [List.filter_cons, this]
  · intro clientRes listRes restoreAnns item out h
    cases restoreAnns with
    | none =>
      simp only [Execute] at h
      cases h
      rfl
    | some anns =>
      cases hg : (anns.lookup offloadGateKey).isNone with
      | true =>
        simp only [Execute, hg, if_true] at h
        cases h
        simp [Execute, hg]
      | false =>
        cases hc : newInitcontainerConfig clientRes listRes with
        | panic => simp [Execute, hg, hc] at h
        | err e => simp [Execute, hg, hc] at h
        | ok cfg =>
          rw [Execute_gate_true item hg hc] at h
          cases h
          rw [Execute_gate_true _ hg hc, executeMutated_idem]

/-- Witness for C2: re-running Execute on the already-mutated sample Pod
returns it unchanged. -/
theorem idempotent_merge_spec_witness :
    Execute (Except.ok ()) (Except.ok [cmEmpty]) (some gateAnns) mutatedOnce =
      GoResult.ok mutatedOnce :=
  idempotent_merge_spec.2.2.2.2.2.2 (Except.ok ()) (Except.ok [cmEmpty]) (some gateAnns)
    samplePod mutatedOnce (by decide)

end VeleroPlugin
